import Mathlib

/-!
Verification development for the cs5542-lab05 pipeline repository.

Shallow embedding of the three Python sources:
  * `scripts/generate_data.py` — synthetic dataset generator,
  * `scripts/ingest.py`        — Snowflake batch loader / logger / verifier,
  * `app/dashboard.py`         — Streamlit dashboard query surface.

External effects (randomness draws, faker strings, wall-clock values,
warehouse query outcomes, file existence) are modelled as explicit
environment inputs; the control flow, data shapes and arithmetic are
translated directly from the source.
-/

set_option autoImplicit false

namespace Lab05

/-! ## Pipeline log model (`scripts/ingest.py`, lines 41–77)

The log file `pipeline_logs.csv` is modelled as `Option LogFile`:
`none` when the file does not exist, `some f` when it exists with
`f.headerCount` header rows and `f.entries` data rows (in file order).
-/

/-- One data row of `pipeline_logs.csv`, with the six fields written by
`log_pipeline`.  `timestamp` is kept abstract (the ISO string produced by
`datetime.now().isoformat()`). -/
structure LogEntry where
  timestamp : String
  feature : String
  operation : String
  latency_ms : Nat
  record_count : Nat
  status : String
deriving Repr, DecidableEq

/-- The `fieldnames` list passed to `csv.DictWriter` in both
`init_pipeline_log` and `log_pipeline` (ingest.py lines 57–59 and 66–68):
the fixed column order of the log file. -/
def fieldnames : List String :=
  ["timestamp", "feature", "operation", "latency_ms", "record_count", "status"]

/-- The pipeline log file contents: number of header rows present and the
data rows in order. -/
structure LogFile where
  headerCount : Nat
  entries : List LogEntry
deriving Repr, DecidableEq

/-- `init_pipeline_log` (ingest.py lines 53–60): create the file with a
header row only when it does not already exist. -/
def init_pipeline_log : Option LogFile → Option LogFile
  | none => some ⟨1, []⟩
  | some f => some f

/-- `log_pipeline` (ingest.py lines 62–77): open in append mode and write
one data row.  Append mode creates the file without a header when it is
absent. -/
def log_pipeline (ts feature operation : String) (latency_ms record_count : Nat)
    (status : String) : Option LogFile → Option LogFile
  | none => some ⟨0, [⟨ts, feature, operation, latency_ms, record_count, status⟩]⟩
  | some f =>
    some ⟨f.headerCount, f.entries ++ [⟨ts, feature, operation, latency_ms, record_count, status⟩]⟩

/-- `log_pipeline` with the `status` parameter left at its declared default
`'SUCCESS'`, which is how every call site in the repository invokes it. -/
def log_pipeline_default (ts feature operation : String) (latency_ms record_count : Nat) :
    Option LogFile → Option LogFile :=
  log_pipeline ts feature operation latency_ms record_count "SUCCESS"

/-- Data rows of a possibly-absent log file. -/
def entriesOf : Option LogFile → List LogEntry
  | none => []
  | some f => f.entries

/-- Number of log entries whose `operation` field equals `op`. -/
def countOp (l : List LogEntry) (op : String) : Nat :=
  l.countP fun e => e.operation == op

/-! ## Python randomness primitives (`random` module calls used by
`scripts/generate_data.py`)

Each call site's draw is an explicit `Nat` (or `ℚ` for `random.random()`)
environment input; the primitives map the draw into the range the Python
function produces. -/

/-- `random.randint(a, b)`: uniform integer with both endpoints included;
`k` is the underlying draw. -/
def randint (a b k : Nat) : Nat := a + k % (b - a + 1)

/-- `random.choice(l)` on a non-empty list: selects one element; `k` is the
underlying draw.  (In the script it is only ever applied to non-empty
lists; the `default` is unreachable there.) -/
def pychoice {α : Type} [Inhabited α] (l : List α) (k : Nat) : α :=
  l.getD (k % l.length) default

/-- `round(random.uniform(1.0, 10.0), 1)` (generate_data.py line 82): a
one-decimal CVSS value in `[1.0, 10.0]`, i.e. some number of tenths between
10 and 100; `k` is the underlying draw. -/
def uniform_1_10_round1 (k : Nat) : ℚ := ((10 + k % 91 : Nat) : ℚ) / 10

/-- `round(random.uniform(0.0, 100.0), 1)` (generate_data.py line 162): a
one-decimal compliance score in `[0.0, 100.0]`. -/
def uniform_0_100_round1 (k : Nat) : ℚ := ((k % 1001 : Nat) : ℚ) / 10

/-- `f'{n:0wd}'`-style zero padding used for the generated identifiers. -/
def zfill (w : Nat) (n : Nat) : String :=
  let s := toString n
  String.mk (List.replicate (w - s.length) '0') ++ s

/-! ## Synthetic dataset generator (`scripts/generate_data.py`)

Dates are modelled as integer day numbers (`datetime.now()` of the record's
construction is the environment input `nowDay`), timestamps as integer
second counts (`nowSec`).  The generated `'%Y-%m-%d'` strings preserve the
day ordering, and the `'%Y-%m-%d %H:%M:%S'` strings the second ordering. -/

/-- Choice pool `actor_types` (generate_data.py line 27). -/
def actor_types : List String := ["APT", "Criminal Gang", "Insider Threat", "Hacktivist"]

/-- Choice pool for `sophistication_level` (generate_data.py line 41). -/
def sophistication_levels : List String := ["Low", "Medium", "High", "Very High"]

/-- Choice pool `asset_types` (generate_data.py line 52). -/
def asset_types : List String :=
  ["Server", "Endpoint", "Network Device", "Database", "Application", "IoT Device"]

/-- Choice pool `os_types` (generate_data.py line 53). -/
def os_types : List String := ["Linux", "Windows", "macOS", "Android", "iOS"]

/-- Choice pool `criticality_levels` (generate_data.py line 54). -/
def criticality_levels : List String := ["Low", "Medium", "High", "Critical"]

/-- Choice pool `vuln_categories` (generate_data.py line 77). -/
def vuln_categories : List String :=
  ["RCE", "SQL Injection", "XSS", "Authentication", "Encryption", "Authorization",
   "Information Disclosure"]

/-- Choice pool `vuln_statuses` (generate_data.py line 78). -/
def vuln_statuses : List String := ["Open", "In Remediation", "Remediated", "Accepted Risk"]

/-- Choice pool `incident_types` (generate_data.py line 116). -/
def incident_types : List String :=
  ["Malware Detection", "Unauthorized Access", "Data Breach", "DDoS Attack", "Phishing",
   "Insider Threat"]

/-- Choice pool `attack_vectors` (generate_data.py line 117). -/
def attack_vectors : List String :=
  ["Network", "Email", "Physical", "Supply Chain", "Web Application", "Social Engineering"]

/-- Choice pool `kill_chain_phases` (generate_data.py line 118). -/
def kill_chain_phases : List String :=
  ["Reconnaissance", "Weaponization", "Delivery", "Exploitation", "Installation",
   "Command & Control", "Actions on Objectives"]

/-- Choice pool `frameworks` (generate_data.py line 145). -/
def frameworks : List String := ["NIST CSF", "SOC 2", "ISO 27001", "Zero Trust"]

/-- Choice pool `nist_categories` (generate_data.py line 146). -/
def nist_categories : List String := ["Identify", "Protect", "Detect", "Respond", "Recover"]

/-- Choice pool `control_names` (generate_data.py lines 147–151). -/
def control_names : List String :=
  ["MFA Implementation", "Data Encryption", "Access Control Review", "Network Segmentation",
   "Vulnerability Assessment", "Incident Response Plan", "Security Training", "Log Monitoring",
   "Firewall Configuration", "Backup & Recovery", "Patch Management", "SIEM Deployment"]

/-- Choice pool `implementation_statuses` (generate_data.py line 152). -/
def implementation_statuses : List String :=
  ["Not Started", "In Progress", "Implemented", "Compliant", "Non-Compliant"]

/-- One `threat_actors.csv` record (generate_data.py lines 34–42). -/
structure ThreatActor where
  actor_id : String
  name : String
  actor_type : String
  country_origin : String
  ttps : String
  active_since : Int
  sophistication_level : String
deriving Repr, DecidableEq

/-- Per-record randomness and faker outputs for one threat actor. -/
structure ActorRand where
  nameText : String
  actorTypeDraw : Nat
  countryCode : String
  ttpsText : String
  nowDay : Int
  activeAgoDraw : Nat
  sophDraw : Nat
deriving Inhabited

/-- Construction of the `i`-th threat-actor dict (generate_data.py
lines 34–42). -/
def make_threat_actor (i : Nat) (r : ActorRand) : ThreatActor :=
  { actor_id := "TA" ++ zfill 3 i
    name := r.nameText
    actor_type := pychoice actor_types r.actorTypeDraw
    country_origin := r.countryCode
    ttps := r.ttpsText
    active_since := r.nowDay - (randint 365 3650 r.activeAgoDraw : Int)
    sophistication_level := pychoice sophistication_levels r.sophDraw }

/-- One `assets.csv` record (generate_data.py lines 57–67). -/
structure Asset where
  asset_id : String
  hostname : String
  ip_address : String
  asset_type : String
  criticality : String
  owner : String
  location : String
  os_name : String
  last_patched_date : Int
deriving Repr, DecidableEq

/-- Per-record randomness and faker outputs for one asset. -/
structure AssetRand where
  hostText : String
  ipText : String
  assetTypeDraw : Nat
  critDraw : Nat
  ownerText : String
  cityText : String
  osDraw : Nat
  nowDay : Int
  patchedAgoDraw : Nat
deriving Inhabited

/-- Construction of the `i`-th asset dict (generate_data.py lines 57–67).
The Python field `os` is rendered here as `os_name`. -/
def make_asset (i : Nat) (r : AssetRand) : Asset :=
  { asset_id := "AST" ++ zfill 4 i
    hostname := r.hostText
    ip_address := r.ipText
    asset_type := pychoice asset_types r.assetTypeDraw
    criticality := pychoice criticality_levels r.critDraw
    owner := r.ownerText
    location := r.cityText
    os_name := pychoice os_types r.osDraw
    last_patched_date := r.nowDay - (randint 0 180 r.patchedAgoDraw : Int) }

/-- One `vulnerabilities.csv` record (generate_data.py lines 95–106). -/
structure Vulnerability where
  vuln_id : String
  cve_id : String
  asset_id : String
  cvss_score : ℚ
  severity_label : String
  category : String
  description : String
  discovered_date : Int
  remediated_date : Option Int
  status : String
deriving Repr, DecidableEq

/-- Per-record randomness and faker outputs for one vulnerability.
`presentDraw` is the `random.random()` value deciding whether
`remediated_date` is set (generate_data.py line 104). -/
structure VulnRand where
  assetDraw : Nat
  scoreDraw : Nat
  cveYearDraw : Nat
  cveNumDraw : Nat
  categoryDraw : Nat
  descText : String
  nowDay : Int
  discoveredAgoDraw : Nat
  presentDraw : ℚ
  remediateAfterDraw : Nat
  statusDraw : Nat
deriving Inhabited

/-- The severity if/elif chain of generate_data.py lines 84–91. -/
def severity_of_score (cvss_score : ℚ) : String :=
  if cvss_score ≥ 9 then "Critical"
  else if cvss_score ≥ 7 then "High"
  else if cvss_score ≥ 4 then "Medium"
  else "Low"

/-- The presence test `random.random() > 0.4` for `remediated_date`
(generate_data.py line 104). -/
def vuln_remediated_present (r : ℚ) : Bool := r > 4/10

/-- The presence test `random.random() > 0.3` for `resolved_at`
(generate_data.py line 131). -/
def incident_resolved_present (r : ℚ) : Bool := r > 3/10

/-- Construction of the `i`-th vulnerability dict (generate_data.py
lines 80–106): `asset_id` is `random.choice` over the already-generated
asset id pool, `cvss_score` a rounded uniform draw, `severity_label` the
threshold chain, and `remediated_date` optionally `discovered_date` plus
`randint(1, 120)` days. -/
def make_vulnerability (asset_ids : List String) (i : Nat) (r : VulnRand) : Vulnerability :=
  let cvss_score := uniform_1_10_round1 r.scoreDraw
  let discovered := r.nowDay - (randint 0 365 r.discoveredAgoDraw : Int)
  { vuln_id := "VUL" ++ zfill 5 i
    cve_id := "CVE-" ++ toString (randint 2019 2024 r.cveYearDraw) ++ "-"
      ++ toString (randint 10000 99999 r.cveNumDraw)
    asset_id := pychoice asset_ids r.assetDraw
    cvss_score := cvss_score
    severity_label := severity_of_score cvss_score
    category := pychoice vuln_categories r.categoryDraw
    description := r.descText
    discovered_date := discovered
    remediated_date :=
      if vuln_remediated_present r.presentDraw then
        some (discovered + (randint 1 120 r.remediateAfterDraw : Int))
      else none
    status := pychoice vuln_statuses r.statusDraw }

/-- One `incidents.csv` record (generate_data.py lines 125–135). -/
structure Incident where
  incident_id : String
  asset_id : String
  incident_type : String
  severity : String
  detected_at : Int
  resolved_at : Option Int
  attack_vector : String
  kill_chain_phase : String
  threat_actor_id : String
deriving Repr, DecidableEq

/-- Per-record randomness for one incident.  `presentDraw` is the
`random.random()` value deciding whether `resolved_at` is set. -/
structure IncidentRand where
  assetDraw : Nat
  actorDraw : Nat
  typeDraw : Nat
  sevDraw : Nat
  nowSec : Int
  detectedAgoDraw : Nat
  presentDraw : ℚ
  resolveAfterDraw : Nat
  vectorDraw : Nat
  phaseDraw : Nat
deriving Inhabited

/-- Construction of the `i`-th incident dict (generate_data.py
lines 120–135): references are `random.choice` over the generated asset
and actor id pools; `detected_at` is now minus `randint(0, 365)` days (in
seconds), `resolved_at` optionally `detected_at` plus `randint(1, 720)`
hours. -/
def make_incident (asset_ids actor_ids : List String) (i : Nat) (r : IncidentRand) : Incident :=
  let detected := r.nowSec - 86400 * (randint 0 365 r.detectedAgoDraw : Int)
  { incident_id := "INC" ++ zfill 5 i
    asset_id := pychoice asset_ids r.assetDraw
    incident_type := pychoice incident_types r.typeDraw
    severity := pychoice criticality_levels r.sevDraw
    detected_at := detected
    resolved_at :=
      if incident_resolved_present r.presentDraw then
        some (detected + 3600 * (randint 1 720 r.resolveAfterDraw : Int))
      else none
    attack_vector := pychoice attack_vectors r.vectorDraw
    kill_chain_phase := pychoice kill_chain_phases r.phaseDraw
    threat_actor_id := pychoice actor_ids r.actorDraw }

/-- One `security_controls.csv` record (generate_data.py lines 155–163). -/
structure SecurityControl where
  control_id : String
  framework : String
  category : String
  control_name : String
  implementation_status : String
  last_reviewed_date : Int
  compliance_score : ℚ
deriving Repr, DecidableEq

/-- Per-record randomness for one security control. -/
structure ControlRand where
  frameworkDraw : Nat
  categoryDraw : Nat
  nameDraw : Nat
  statusDraw : Nat
  nowDay : Int
  reviewedAgoDraw : Nat
  scoreDraw : Nat
deriving Inhabited

/-- Construction of the `i`-th security-control dict (generate_data.py
lines 155–163). -/
def make_security_control (i : Nat) (r : ControlRand) : SecurityControl :=
  { control_id := "CTL" ++ zfill 4 i
    framework := pychoice frameworks r.frameworkDraw
    category := pychoice nist_categories r.categoryDraw
    control_name := pychoice control_names r.nameDraw
    implementation_status := pychoice implementation_statuses r.statusDraw
    last_reviewed_date := r.nowDay - (randint 0 365 r.reviewedAgoDraw : Int)
    compliance_score := uniform_0_100_round1 r.scoreDraw }

/-- The whole randomness/faker environment of one run of
`generate_data.py`: one per-record input for each loop index. -/
structure GenEnv where
  actorRand : Nat → ActorRand
  assetRand : Nat → AssetRand
  vulnRand : Nat → VulnRand
  incidentRand : Nat → IncidentRand
  controlRand : Nat → ControlRand

/-- The `threat_actors` list built by the loop `for i in range(1, 51)`
(generate_data.py lines 33–42). -/
def threat_actors (g : GenEnv) : List ThreatActor :=
  (List.range' 1 50).map fun i => make_threat_actor i (g.actorRand i)

/-- The `assets` list built by the loop `for i in range(1, 201)`
(generate_data.py lines 56–67). -/
def assets (g : GenEnv) : List Asset :=
  (List.range' 1 200).map fun i => make_asset i (g.assetRand i)

/-- `df_assets['asset_id'].tolist()` (generate_data.py lines 81, 121). -/
def asset_id_pool (g : GenEnv) : List String := (assets g).map (·.asset_id)

/-- `df_actors['actor_id'].tolist()` (generate_data.py line 122). -/
def actor_id_pool (g : GenEnv) : List String := (threat_actors g).map (·.actor_id)

/-- The `vulnerabilities` list built by the loop `for i in range(1, 501)`
(generate_data.py lines 80–106); runs after assets are generated. -/
def vulnerabilities (g : GenEnv) : List Vulnerability :=
  (List.range' 1 500).map fun i => make_vulnerability (asset_id_pool g) i (g.vulnRand i)

/-- The `incidents` list built by the loop `for i in range(1, 301)`
(generate_data.py lines 120–135); runs after actors and assets. -/
def incidents (g : GenEnv) : List Incident :=
  (List.range' 1 300).map fun i => make_incident (asset_id_pool g) (actor_id_pool g) i
    (g.incidentRand i)

/-- The `controls` list built by the loop `for i in range(1, 101)`
(generate_data.py lines 154–163). -/
def security_controls (g : GenEnv) : List SecurityControl :=
  (List.range' 1 100).map fun i => make_security_control i (g.controlRand i)

/-! ## Warehouse state model

Row counts per table, as an association list keyed by table name; a
missing key means an empty table. -/

/-- Replace (or add) the row count of table `t`. -/
def dbSet (db : List (String × Nat)) (t : String) (v : Nat) : List (String × Nat) :=
  match db with
  | [] => [(t, v)]
  | (u, w) :: rest => if u = t then (u, v) :: rest else (u, w) :: dbSet rest t v

/-- `SELECT COUNT(*) FROM t` against the modelled warehouse. -/
def dbGet (db : List (String × Nat)) (t : String) : Nat :=
  match db with
  | [] => 0
  | (u, w) :: rest => if u = t then w else dbGet rest t

/-- The order and values of `table_mapping` in `ingest_data` (ingest.py
lines 192–198) and of `tables` in `verify_data` (lines 300–302). -/
def TABLES : List String :=
  ["THREAT_ACTORS", "ASSETS", "VULNERABILITIES", "INCIDENTS", "SECURITY_CONTROLS"]

/-! ## Batch loader (`ingest_data`, ingest.py lines 186–239) -/

/-- Sizes of the row batches produced by
`for i in range(0, len(df), batch_size)` with `batch_size = 100`
(ingest.py lines 222–224): each `df.iloc[i:i+100]` slice has
`min 100 (n - i)` rows. -/
def batchSizes (n : Nat) : List Nat :=
  if _h : n = 0 then [] else min 100 n :: batchSizes (n - min 100 n)
termination_by n
decreasing_by omega

/-- Delete-then-batched-insert for one table (ingest.py lines 218–229):
`DELETE FROM t` zeroes the count, then each `executemany` batch adds its
row count. -/
def ingest_one (t : String) (rows : Nat) (db : List (String × Nat)) : List (String × Nat) :=
  (batchSizes rows).foldl (fun d b => dbSet d t (dbGet d t + b)) (dbSet db t 0)

/-- Environment for one CSV file at load time: whether
`os.path.exists(csv_file)` holds, the row count `len(df)` of the file, a
flag for whether the table's DELETE/INSERT statements all succeed, and the
measured latency. -/
structure FileEnv where
  present : Bool
  rows : Nat
  insertOk : Bool
  latency : Nat
deriving Repr, DecidableEq

/-- `ingest_data` (ingest.py lines 186–239): process the files in order;
a missing file prints a warning and `continue`s; a successful load appends
one `DATA_LOAD` log entry; any DELETE/INSERT exception propagates out of
the whole loader (the enclosing `except` re-`raise`s), leaving the state
reached so far (here: the failing table already emptied by its prior
DELETE).  The first component is the propagated error, `none` on success. -/
def ingest_data (ts : String) :
    List (String × FileEnv) → List (String × Nat) → Option LogFile →
    Option String × List (String × Nat) × Option LogFile
  | [], db, fs => (none, db, fs)
  | (t, f) :: rest, db, fs =>
    if f.present then
      if f.insertOk then
        ingest_data ts rest (ingest_one t f.rows db)
          (log_pipeline_default ts t "DATA_LOAD" f.latency f.rows fs)
      else
        (some t, dbSet db t 0, fs)
    else
      ingest_data ts rest db fs

/-! ## SQL statement execution (`setup_database` and `create_analytics`) -/

/-- One statement of an external SQL file, after `split(';')`: `blank`
means the statement is empty once stripped (for the analytics file: once
comment lines are also removed); `execOk` is whether `cursor.execute`
succeeds on it; `isCreate` is whether `'CREATE OR REPLACE' in statement`;
`objName` the token the analytics logger parses out (or `'QUERY'`). -/
structure SqlStmt where
  blank : Bool
  execOk : Bool
  isCreate : Bool
  objName : String
  latency : Nat
deriving Repr, DecidableEq

/-- The fail-fast statement loop of `setup_database` (ingest.py
lines 161–163 and 171–173): blanks are skipped, each non-blank statement
is executed, and the first execution failure raises out of the loop.
Returns the outcome and the list of statements actually executed. -/
def run_stmts_fail_fast : List SqlStmt → Except String Unit × List SqlStmt
  | [] => (.ok (), [])
  | s :: rest =>
    if s.blank then run_stmts_fail_fast rest
    else if s.execOk then
      let (r, ex) := run_stmts_fail_fast rest
      (r, s :: ex)
    else
      (.error s.objName, [s])

/-- `setup_database` (ingest.py lines 151–181): run the `01_setup.sql`
statements, then the `02_schema.sql` statements; any failure propagates
(`raise` in the `except` block) and aborts the rest. -/
def setup_database (setupStmts schemaStmts : List SqlStmt) : Except String Unit × List SqlStmt :=
  match run_stmts_fail_fast setupStmts with
  | (.error e, ex) => (.error e, ex)
  | (.ok _, ex1) =>
    let (r, ex2) := run_stmts_fail_fast schemaStmts
    (r, ex1 ++ ex2)

/-- `create_analytics` (ingest.py lines 244–289): for each statement of
`04_queries.sql`, skip it when comment-stripping leaves nothing; otherwise
execute it inside a per-statement `try`, so a failure is printed and
skipped and the loop continues; on success a `CREATE OR REPLACE` statement
is logged as feature `ANALYTICS`, operation `CREATE_<name>`.  Returns the
final log state and the statements attempted. -/
def create_analytics (ts : String) :
    List SqlStmt → Option LogFile → Option LogFile × List SqlStmt
  | [], fs => (fs, [])
  | s :: rest, fs =>
    if s.blank then create_analytics ts rest fs
    else if s.execOk then
      let fs1 :=
        if s.isCreate then
          log_pipeline_default ts "ANALYTICS" ("CREATE_" ++ s.objName) s.latency 0 fs
        else fs
      let (fs2, ex) := create_analytics ts rest fs1
      (fs2, s :: ex)
    else
      let (fs2, ex) := create_analytics ts rest fs
      (fs2, s :: ex)

/-! ## Verifier (`verify_data`, ingest.py lines 294–318) -/

/-- The count loop of `verify_data` (ingest.py lines 304–310): accumulate
`total_rows` and print one per-table line; a failing count query raises to
the enclosing handler, which swallows it (no log entry, no re-raise).
`.error trace` carries the per-table counts printed before the failure. -/
def verify_loop :
    List (String × Except String Nat) → Nat → List (String × Nat) →
    Except (List (String × Nat)) (Nat × List (String × Nat))
  | [], total, trace => .ok (total, trace)
  | (t, .ok c) :: rest, total, trace => verify_loop rest (total + c) (trace ++ [(t, c)])
  | (_, .error _) :: _, _, trace => .error trace

/-- `verify_data` (ingest.py lines 294–318): on success appends one
`VERIFICATION` entry whose `record_count` is the sum of the per-table
counts (latency 0); any failure is caught and reported without raising.
Returns the log state and the per-table counts printed. -/
def verify_data (ts : String) (counts : List (String × Except String Nat))
    (fs : Option LogFile) : Option LogFile × List (String × Nat) :=
  match verify_loop counts 0 [] with
  | .ok (total, trace) =>
    (log_pipeline_default ts "PIPELINE" "VERIFICATION" 0 total fs, trace)
  | .error trace => (fs, trace)

/-! ## Pipeline driver (`main`, ingest.py lines 323–347) -/

/-- Whether an `Except` outcome is a success. -/
def isOkE : Except String Unit → Bool
  | .ok _ => true
  | .error _ => false

/-- Environment of one pipeline run: the timestamp string, whether
`connect_snowflake` succeeds, the parsed statements of the three SQL
files, the per-file load environment, whether the analytics SQL file can
be read, and which verification count queries fail. -/
structure PipelineEnv where
  ts : String
  connectOk : Bool
  setupStmts : List SqlStmt
  schemaStmts : List SqlStmt
  files : List (String × FileEnv)
  analyticsFileOk : Bool
  analyticsStmts : List SqlStmt
  countFail : String → Bool

/-- Replace the verification-failure flags of an environment. -/
def setCountFail (env : PipelineEnv) (cf : String → Bool) : PipelineEnv :=
  ⟨env.ts, env.connectOk, env.setupStmts, env.schemaStmts, env.files, env.analyticsFileOk,
   env.analyticsStmts, cf⟩

/-- The count-query outcomes `verify_data` sees: per table of `TABLES`,
either a failure or the table's current row count. -/
def mkCounts (cf : String → Bool) (db : List (String × Nat)) :
    List (String × Except String Nat) :=
  TABLES.map fun t => (t, if cf t then Except.error "count failed" else Except.ok (dbGet db t))

/-- `main` (ingest.py lines 323–347): `init_pipeline_log`, then connect →
setup → ingest → analytics → verify; any exception escaping one of the
first four stages is caught at the bottom of `main` and turns into
`exit(1)`; `verify_data` cannot raise.  Returns the exit code, the
warehouse state, and the log state. -/
def main (env : PipelineEnv) (db : List (String × Nat)) (fs0 : Option LogFile) :
    Nat × List (String × Nat) × Option LogFile :=
  let fs := init_pipeline_log fs0
  if env.connectOk then
    if isOkE (setup_database env.setupStmts env.schemaStmts).1 then
      match ingest_data env.ts env.files db fs with
      | (some _, db1, fs1) => (1, db1, fs1)
      | (none, db1, fs1) =>
        if env.analyticsFileOk then
          let fs2 := (create_analytics env.ts env.analyticsStmts fs1).1
          let fs3 := (verify_data env.ts (mkCounts env.countFail db1) fs2).1
          (0, db1, fs3)
        else (1, db1, fs1)
    else (1, db, fs)
  else (1, db, fs)

/-- `N` consecutive runs of the pipeline driver, threading warehouse and
log state; run `k` uses environment `envs k`. -/
def mainN : Nat → (Nat → PipelineEnv) → List (String × Nat) → Option LogFile →
    List (String × Nat) × Option LogFile
  | 0, _, db, fs => (db, fs)
  | n + 1, envs, db, fs =>
    let (_, db1, fs1) := main (envs n) db fs
    mainN n envs db1 fs1

/-- A run environment under which the pipeline completes: connection up,
all setup/schema statements succeed, exactly the five files present and
loadable, and the analytics file readable.  (`countFail` is constrained
separately since it is a function.) -/
def completeEnv (env : PipelineEnv) : Bool :=
  env.connectOk && isOkE (setup_database env.setupStmts env.schemaStmts).1
    && (env.files.length == 5)
    && env.files.all (fun p => p.2.present && p.2.insertOk)
    && env.analyticsFileOk

/-- The five-file load environment corresponding to freshly generated
data: every file present and loadable, with the generated row counts. -/
def gen_files (g : GenEnv) (lat : Nat) : List (String × FileEnv) :=
  [("THREAT_ACTORS", ⟨true, (threat_actors g).length, true, lat⟩),
   ("ASSETS", ⟨true, (assets g).length, true, lat⟩),
   ("VULNERABILITIES", ⟨true, (vulnerabilities g).length, true, lat⟩),
   ("INCIDENTS", ⟨true, (incidents g).length, true, lat⟩),
   ("SECURITY_CONTROLS", ⟨true, (security_controls g).length, true, lat⟩)]

/-! ## Dashboard model (`app/dashboard.py`)

`st.error`/`st.info` calls are modelled as a list of rendered notice
strings; `st.stop` as a `stopped` flag; query results are abstracted to a
`Nat` handle. -/

/-- `execute_query` (dashboard.py lines 120–132): a successful query
returns `(df, latency_ms)`; any exception is caught, rendered as an
inline `st.error` notice, and `(None, 0)` is returned. -/
def execute_query {α : Type} (result : Except String (α × Nat)) :
    (Option α × Nat) × List String :=
  match result with
  | .ok (df, lat) => ((some df, lat), [])
  | .error e => ((none, 0), ["Query failed: " ++ e])

/-- The `st.info` remediation text of `get_snowflake_connection`
(dashboard.py line 114). -/
def MFA_INFO : String :=
  "If MFA is enabled, generate an API Key in Snowflake and set SNOWFLAKE_PRIVATE_KEY in .env"

/-- `get_snowflake_connection` (dashboard.py lines 59–115): catches its
own connection exception, renders an inline error plus remediation info,
and returns `None` instead of raising. -/
def get_snowflake_connection (r : Except String Unit) : Option Unit × List String :=
  match r with
  | .ok c => (some c, [])
  | .error e => (none, ["Failed to connect to Snowflake: " ++ e, MFA_INFO])

/-- The page's per-query loop: every query is run through
`execute_query`; failures contribute a notice and a `none` result but do
not prevent the following queries from running. -/
def run_queries : List (Except String (Nat × Nat)) → List (Option Nat) × List String
  | [] => ([], [])
  | q :: rest =>
    let ((df, _), ns) := execute_query q
    let (dfs, ns2) := run_queries rest
    (df :: dfs, ns ++ ns2)

/-- Environment of one dashboard session: the connection outcome and the
outcomes of the queries the page would issue. -/
structure DashEnv where
  connect : Except String Unit
  queries : List (Except String (Nat × Nat))

/-- Observable outcome of one dashboard script run. -/
structure DashState where
  notices : List String
  stopped : Bool
  queriesRun : Nat
  results : List (Option Nat)
deriving Repr, DecidableEq

/-- The dashboard script body (dashboard.py lines 145–196 and onward): the
sidebar checks the cached connection; when it is `None` an inline error is
rendered and `st.stop()` halts the script before any query runs; otherwise
every page query is executed through `execute_query`. -/
def dashboard_run (env : DashEnv) : DashState :=
  let (conn, ns) := get_snowflake_connection env.connect
  match conn with
  | none => ⟨ns ++ ["Not connected to Snowflake"], true, 0, []⟩
  | some _ =>
    let (res, ns2) := run_queries env.queries
    ⟨ns ++ ["Connected to Snowflake"] ++ ns2, false, env.queries.length, res⟩

/-! ## Helper lemmas -/

theorem batchSizes_sum (n : Nat) : (batchSizes n).sum = n := by
  induction n using Nat.strong_induction_on with
  | _ n ih =>
    rw [batchSizes]
    split
    · simp [*]
    · rename_i h
      rw [List.sum_cons, ih (n - min 100 n) (by omega)]
      omega

theorem dbGet_dbSet_same (db : List (String × Nat)) (t : String) (v : Nat) :
    dbGet (dbSet db t v) t = v := by
  induction db with
  | nil => simp [dbSet, dbGet]
  | cons p rest ih =>
    obtain ⟨u, w⟩ := p
    by_cases h : u = t <;> simp [dbSet, dbGet, h, ih]

theorem dbGet_dbSet_ne (db : List (String × Nat)) (t u : String) (v : Nat) (h : t ≠ u) :
    dbGet (dbSet db t v) u = dbGet db u := by
  induction db with
  | nil => simp [dbSet, dbGet, h]
  | cons p rest ih =>
    obtain ⟨x, w⟩ := p
    by_cases hx : x = t
    · subst hx
      simp [dbSet, dbGet, h]
    · simp [dbSet, dbGet, hx, ih]

theorem dbGet_foldl_batches (bs : List Nat) (t : String) (d0 : List (String × Nat)) :
    dbGet (bs.foldl (fun d b => dbSet d t (dbGet d t + b)) d0) t = dbGet d0 t + bs.sum := by
  induction bs generalizing d0 with
  | nil => simp
  | cons b rest ih =>
    simp only [List.foldl_cons, List.sum_cons, ih, dbGet_dbSet_same]
    omega

theorem dbGet_foldl_batches_ne (bs : List Nat) (t u : String) (d0 : List (String × Nat))
    (h : t ≠ u) :
    dbGet (bs.foldl (fun d b => dbSet d t (dbGet d t + b)) d0) u = dbGet d0 u := by
  induction bs generalizing d0 with
  | nil => simp
  | cons b rest ih => simp only [List.foldl_cons, ih, dbGet_dbSet_ne _ _ _ _ h]

theorem ingest_one_get (t : String) (rows : Nat) (db : List (String × Nat)) :
    dbGet (ingest_one t rows db) t = rows := by
  simp [ingest_one, dbGet_foldl_batches, dbGet_dbSet_same, batchSizes_sum]

theorem ingest_one_get_ne (t u : String) (rows : Nat) (db : List (String × Nat)) (h : t ≠ u) :
    dbGet (ingest_one t rows db) u = dbGet db u := by
  simp [ingest_one, dbGet_foldl_batches_ne _ _ _ _ h, dbGet_dbSet_ne _ _ _ _ h]

theorem pychoice_mem {α : Type} [Inhabited α] {l : List α} (h : l ≠ []) (k : Nat) :
    pychoice l k ∈ l := by
  have hlt : k % l.length < l.length := Nat.mod_lt _ (List.length_pos.mpr h)
  unfold pychoice
  rw [List.getD_eq_getElem?_getD, List.getElem?_eq_getElem hlt]
  exact List.getElem_mem hlt

theorem threat_actors_length (g : GenEnv) : (threat_actors g).length = 50 := by
  simp [threat_actors]

theorem assets_length (g : GenEnv) : (assets g).length = 200 := by
  simp [assets]

theorem vulnerabilities_length (g : GenEnv) : (vulnerabilities g).length = 500 := by
  simp [vulnerabilities]

theorem incidents_length (g : GenEnv) : (incidents g).length = 300 := by
  simp [incidents]

theorem security_controls_length (g : GenEnv) : (security_controls g).length = 100 := by
  simp [security_controls]

theorem asset_id_pool_ne_nil (g : GenEnv) : asset_id_pool g ≠ [] := by
  have : (asset_id_pool g).length = 200 := by simp [asset_id_pool, assets_length]
  intro h
  rw [h] at this
  simp at this

theorem actor_id_pool_ne_nil (g : GenEnv) : actor_id_pool g ≠ [] := by
  have : (actor_id_pool g).length = 50 := by simp [actor_id_pool, threat_actors_length]
  intro h
  rw [h] at this
  simp at this

/-! ## C1: severity label is the threshold function of the score -/

/-- The severity thresholds exactly as the spec states them:
score ≥ 9.0 → Critical, else ≥ 7.0 → High, else ≥ 4.0 → Medium, else
Low. -/
def spec_severity_label (score : ℚ) : String :=
  if score ≥ 9 then "Critical"
  else if score ≥ 7 then "High"
  else if score ≥ 4 then "Medium"
  else "Low"

theorem severity_label_eq_spec (asset_ids : List String) (i : Nat) (r : VulnRand) :
    (make_vulnerability asset_ids i r).severity_label =
      spec_severity_label (make_vulnerability asset_ids i r).cvss_score := rfl

/-- C1: for every generated vulnerability record, the `severity_label`
field equals the deterministic threshold function (≥9.0 Critical,
≥7.0 High, ≥4.0 Medium, else Low) of its `cvss_score` field. -/
theorem C1_severity_label_thresholds :
    ∀ g : GenEnv,
      ((vulnerabilities g).all fun v =>
        v.severity_label == spec_severity_label v.cvss_score) = true := by
  intro g
  rw [List.all_eq_true]
  intro v hv
  simp only [vulnerabilities, List.mem_map] at hv
  obtain ⟨i, _, rfl⟩ := hv
  rw [beq_iff_eq]
  exact severity_label_eq_spec _ _ _

/-! ## C3: referential closure of generated references -/

/-- C3: every `asset_id` carried by a generated vulnerability or incident
is the `asset_id` of some generated asset, and every `threat_actor_id`
carried by a generated incident is the `actor_id` of some generated
threat actor. -/
theorem C3_referential_closure :
    ∀ g : GenEnv,
      ((vulnerabilities g).all fun v => (asset_id_pool g).contains v.asset_id) = true ∧
      ((incidents g).all fun inc => (asset_id_pool g).contains inc.asset_id) = true ∧
      ((incidents g).all fun inc => (actor_id_pool g).contains inc.threat_actor_id) = true := by
  intro g
  refine ⟨?_, ?_, ?_⟩ <;> rw [List.all_eq_true] <;> intro x hx
  · simp only [vulnerabilities, List.mem_map] at hx
    obtain ⟨i, _, rfl⟩ := hx
    exact List.elem_eq_true_of_mem (pychoice_mem (asset_id_pool_ne_nil g) _)
  · simp only [incidents, List.mem_map] at hx
    obtain ⟨i, _, rfl⟩ := hx
    exact List.elem_eq_true_of_mem (pychoice_mem (asset_id_pool_ne_nil g) _)
  · simp only [incidents, List.mem_map] at hx
    obtain ⟨i, _, rfl⟩ := hx
    exact List.elem_eq_true_of_mem (pychoice_mem (actor_id_pool_ne_nil g) _)

/-! ## C2: loader error policy -/

/-- C2: in the batch loader, a missing source CSV is skipped and
processing continues with the remaining tables; a present file whose
load succeeds appends its `DATA_LOAD` entry and processing continues in
order; a present file whose DELETE/INSERT fails aborts the whole loader
with the error propagated and no further table processed (the failing
table left emptied by its prior DELETE). -/
theorem C2_loader_error_policy :
    (∀ ts t rows ok lat rest db fs,
      ingest_data ts ((t, ⟨false, rows, ok, lat⟩) :: rest) db fs =
        ingest_data ts rest db fs) ∧
    (∀ ts t rows lat rest db fs,
      ingest_data ts ((t, ⟨true, rows, true, lat⟩) :: rest) db fs =
        ingest_data ts rest (ingest_one t rows db)
          (log_pipeline_default ts t "DATA_LOAD" lat rows fs)) ∧
    (∀ ts t rows lat rest db fs,
      ingest_data ts ((t, ⟨true, rows, false, lat⟩) :: rest) db fs =
        (some t, dbSet db t 0, fs)) := by
  refine ⟨?_, ?_, ?_⟩ <;> intros <;> simp [ingest_data]

/-! ## C5: analytics skip-and-continue vs provisioner fail-fast -/

theorem run_stmts_fail_fast_error (pre : List SqlStmt) (s : SqlStmt) (post : List SqlStmt)
    (hpre : pre.all (fun u => u.blank || u.execOk) = true)
    (hb : s.blank = false) (he : s.execOk = false) :
    run_stmts_fail_fast (pre ++ s :: post) =
      (.error s.objName, pre.filter (fun u => !u.blank) ++ [s]) := by
  induction pre with
  | nil => simp [run_stmts_fail_fast, hb, he]
  | cons u rest ih =>
    simp only [List.all_cons, Bool.and_eq_true, Bool.or_eq_true] at hpre
    obtain ⟨hu, hrest⟩ := hpre
    rcases hu with hu | hu
    · simp [run_stmts_fail_fast, hu, ih hrest]
    · by_cases hub : u.blank = true
      · simp [run_stmts_fail_fast, hub, ih hrest]
      · simp only [Bool.not_eq_true] at hub
        simp [run_stmts_fail_fast, hub, hu, ih hrest]

/-- C5: error-policy asymmetry.  In `create_analytics` every non-blank
statement is attempted regardless of earlier per-statement failures (a
failure is caught and skipped), and the function returns normally; in
`setup_database` the first failing statement aborts: the result is the
propagated error and the statements executed are exactly the non-blank
ones before the failure plus the failing one — none after it, and none of
the schema file. -/
theorem C5_error_policy_asymmetry :
    (∀ ts stmts fs,
      (create_analytics ts stmts fs).2 = stmts.filter (fun s => !s.blank)) ∧
    (∀ (pre : List SqlStmt) (s : SqlStmt) (post schemaStmts : List SqlStmt),
      pre.all (fun u => u.blank || u.execOk) = true →
      s.blank = false → s.execOk = false →
      setup_database (pre ++ s :: post) schemaStmts =
        (.error s.objName, pre.filter (fun u => !u.blank) ++ [s])) := by
  constructor
  · intro ts stmts
    induction stmts with
    | nil => intro fs; simp [create_analytics]
    | cons s rest ih =>
      intro fs
      by_cases hb : s.blank = true
      · simp [create_analytics, hb, ih]
      · simp only [Bool.not_eq_true] at hb
        by_cases he : s.execOk = true
        · simp [create_analytics, hb, he, ih]
        · simp only [Bool.not_eq_true] at he
          simp [create_analytics, hb, he, ih]
  · intro pre s post schemaStmts hpre hb he
    rw [setup_database, run_stmts_fail_fast_error pre s post hpre hb he]

/-- Witness for C5 at a concrete statement list: the provisioner given a
comment-only statement, a succeeding one, a failing one and a trailing one
stops at the failure with only the two earlier non-blank statements
attempted. -/
theorem C5_error_policy_asymmetry_witness :
    setup_database
        ([⟨true, true, false, "COMMENT", 0⟩, ⟨false, true, true, "GOOD_VIEW", 3⟩] ++
          (⟨false, false, false, "BAD_VIEW", 0⟩ : SqlStmt) ::
            [⟨false, true, true, "LATER_VIEW", 1⟩])
        [⟨false, true, false, "SCHEMA_STMT", 2⟩] =
      (.error "BAD_VIEW",
        [⟨false, true, true, "GOOD_VIEW", 3⟩, ⟨false, false, false, "BAD_VIEW", 0⟩]) := by
  have h := C5_error_policy_asymmetry.2
    [⟨true, true, false, "COMMENT", 0⟩, ⟨false, true, true, "GOOD_VIEW", 3⟩]
    ⟨false, false, false, "BAD_VIEW", 0⟩
    [⟨false, true, true, "LATER_VIEW", 1⟩]
    [⟨false, true, false, "SCHEMA_STMT", 2⟩]
    (by decide) (by decide) (by decide)
  simpa using h

/-! ## C6: verifier behaviour and exit status -/

theorem verify_loop_ok (cs : List (String × Nat)) (total : Nat) (trace : List (String × Nat)) :
    verify_loop (cs.map fun p => (p.1, Except.ok p.2)) total trace =
      .ok (total + (cs.map Prod.snd).sum, trace ++ cs) := by
  induction cs generalizing total trace with
  | nil => simp [verify_loop]
  | cons p rest ih =>
    obtain ⟨t, c⟩ := p
    simp only [List.map_cons, List.sum_cons, verify_loop, ih, List.append_eq, List.append_nil]
    rw [List.append_assoc, List.singleton_append, Nat.add_assoc]

theorem verify_loop_error (pre : List (String × Nat)) (t e : String)
    (rest : List (String × Except String Nat)) (total : Nat) (trace : List (String × Nat)) :
    verify_loop ((pre.map fun p => (p.1, Except.ok p.2)) ++ (t, Except.error e) :: rest)
        total trace = .error (trace ++ pre) := by
  induction pre generalizing total trace with
  | nil => simp [verify_loop]
  | cons p rest2 ih =>
    obtain ⟨u, c⟩ := p
    simp only [List.map_cons, List.cons_append, verify_loop, List.append_eq, List.append_nil]
    rw [ih, List.append_assoc, List.singleton_append]

theorem verify_data_ok (ts : String) (fs : Option LogFile) (cs : List (String × Nat)) :
    verify_data ts (cs.map fun p => (p.1, Except.ok p.2)) fs =
      (log_pipeline_default ts "PIPELINE" "VERIFICATION" 0 (cs.map Prod.snd).sum fs, cs) := by
  rw [verify_data, verify_loop_ok]
  simp

/-- C6: on an all-successful verification the verifier prints every
per-table count and appends exactly one `VERIFICATION` entry whose
`record_count` is the sum of the five per-table counts; a failing count
query is caught — the verifier returns normally with no entry appended;
and the exit status of the whole pipeline run is independent of which
verification queries fail. -/
theorem C6_verifier_behaviour :
    (∀ ts fs (cs : List (String × Nat)),
      verify_data ts (cs.map fun p => (p.1, Except.ok p.2)) fs =
        (log_pipeline_default ts "PIPELINE" "VERIFICATION" 0 (cs.map Prod.snd).sum fs, cs)) ∧
    (∀ ts fs (pre : List (String × Nat)) t e rest,
      verify_data ts ((pre.map fun p => (p.1, Except.ok p.2)) ++ (t, Except.error e) :: rest)
          fs = (fs, pre)) ∧
    (∀ env cf1 cf2 db fs,
      (main (setCountFail env cf1) db fs).1 = (main (setCountFail env cf2) db fs).1) := by
  refine ⟨?_, ?_, ?_⟩
  · exact verify_data_ok
  · intro ts fs pre t e rest
    rw [verify_data, verify_loop_error]
    simp
  · intro env cf1 cf2 db fs
    by_cases h1 : env.connectOk = true
    · by_cases h2 : isOkE (setup_database env.setupStmts env.schemaStmts).1 = true
      · simp only [main, setCountFail, h1, h2, if_true]
        rcases h3 : ingest_data env.ts env.files db (init_pipeline_log fs) with ⟨err, db1, fs1⟩
        cases err with
        | none =>
          by_cases h4 : env.analyticsFileOk = true <;> simp [h4]
        | some t => simp
      · simp [main, setCountFail, h1, h2]
    · simp [main, setCountFail, h1]

/-! ## C7: optional remediation timestamps -/

/-- C7: the `remediated_date` of a generated vulnerability is present
exactly when the record's `random.random()` draw exceeds 0.4 — an event
of probability 60% under the uniform distribution on `[0, 1)` — and the
`resolved_at` of a generated incident exactly when its draw exceeds 0.3
(probability 70%); whenever present, the timestamp is strictly later than
the record's `discovered_date` (resp. `detected_at`), the offset being
`randint(1, 120)` days (resp. `randint(1, 720)` hours), both at least 1. -/
theorem C7_optional_remediation_timestamps :
    (MeasureTheory.volume {x : ℝ | x ∈ Set.Ico (0:ℝ) 1 ∧ (4/10 : ℝ) < x} =
      ENNReal.ofReal (60/100)) ∧
    (MeasureTheory.volume {x : ℝ | x ∈ Set.Ico (0:ℝ) 1 ∧ (3/10 : ℝ) < x} =
      ENNReal.ofReal (70/100)) ∧
    (∀ ids i r, (make_vulnerability ids i r).remediated_date.isSome =
      vuln_remediated_present r.presentDraw) ∧
    (∀ ids i r,
      ((make_vulnerability ids i r).remediated_date.all
        fun d => decide ((make_vulnerability ids i r).discovered_date < d)) = true) ∧
    (∀ aids tids i r, (make_incident aids tids i r).resolved_at.isSome =
      incident_resolved_present r.presentDraw) ∧
    (∀ aids tids i r,
      ((make_incident aids tids i r).resolved_at.all
        fun d => decide ((make_incident aids tids i r).detected_at < d)) = true) := by
  refine ⟨?_, ?_, ?_, ?_, ?_, ?_⟩
  · have hset : {x : ℝ | x ∈ Set.Ico (0:ℝ) 1 ∧ (4/10 : ℝ) < x} = Set.Ioo (4/10 : ℝ) 1 := by
      ext x
      constructor
      · rintro ⟨⟨_, hx1⟩, hx2⟩
        exact ⟨hx2, hx1⟩
      · rintro ⟨hx2, hx1⟩
        exact ⟨⟨by linarith, hx1⟩, hx2⟩
    rw [hset, Real.volume_Ioo]
    norm_num
  · have hset : {x : ℝ | x ∈ Set.Ico (0:ℝ) 1 ∧ (3/10 : ℝ) < x} = Set.Ioo (3/10 : ℝ) 1 := by
      ext x
      constructor
      · rintro ⟨⟨_, hx1⟩, hx2⟩
        exact ⟨hx2, hx1⟩
      · rintro ⟨hx2, hx1⟩
        exact ⟨⟨by linarith, hx1⟩, hx2⟩
    rw [hset, Real.volume_Ioo]
    norm_num
  · intro ids i r
    simp only [make_vulnerability]
    cases h : vuln_remediated_present r.presentDraw <;> simp [h]
  · intro ids i r
    simp only [make_vulnerability]
    cases h : vuln_remediated_present r.presentDraw
    · simp [h]
    · simp only [h, if_true, Option.all_some, decide_eq_true_eq]
      have : 0 < randint 1 120 r.remediateAfterDraw := by
        simp [randint]
      omega
  · intro aids tids i r
    simp only [make_incident]
    cases h : incident_resolved_present r.presentDraw <;> simp [h]
  · intro aids tids i r
    simp only [make_incident]
    cases h : incident_resolved_present r.presentDraw
    · simp [h]
    · simp only [h, if_true, Option.all_some, decide_eq_true_eq]
      have : 0 < randint 1 720 r.resolveAfterDraw := by
        simp [randint]
      omega

/-! ## C8: target cardinalities, load counts and verification sum -/

theorem mkCounts_ok (cf : String → Bool) (db : List (String × Nat)) (h : ∀ t, cf t = false) :
    mkCounts cf db = (TABLES.map fun t => (t, dbGet db t)).map fun p => (p.1, Except.ok p.2) := by
  simp [mkCounts, h, List.map_map, Function.comp]

theorem gen_load_result (g : GenEnv) (ts : String) (lat : Nat) (db : List (String × Nat))
    (fs : Option LogFile) :
    (ingest_data ts (gen_files g lat) db fs).1 = none ∧
    (ingest_data ts (gen_files g lat) db fs).2.1 =
      ingest_one "SECURITY_CONTROLS" 100 (ingest_one "INCIDENTS" 300
        (ingest_one "VULNERABILITIES" 500 (ingest_one "ASSETS" 200
          (ingest_one "THREAT_ACTORS" 50 db)))) := by
  simp [gen_files, threat_actors_length, assets_length, vulnerabilities_length,
    incidents_length, security_controls_length, ingest_data]

theorem gen_load_counts (g : GenEnv) (ts : String) (lat : Nat) (db : List (String × Nat))
    (fs : Option LogFile) :
    TABLES.map (dbGet (ingest_data ts (gen_files g lat) db fs).2.1) =
      [50, 200, 500, 300, 100] := by
  rw [(gen_load_result g ts lat db fs).2]
  simp only [TABLES, List.map_cons, List.map_nil]
  rw [ingest_one_get_ne "SECURITY_CONTROLS" "THREAT_ACTORS" _ _ (by decide),
    ingest_one_get_ne "INCIDENTS" "THREAT_ACTORS" _ _ (by decide),
    ingest_one_get_ne "VULNERABILITIES" "THREAT_ACTORS" _ _ (by decide),
    ingest_one_get_ne "ASSETS" "THREAT_ACTORS" _ _ (by decide),
    ingest_one_get "THREAT_ACTORS",
    ingest_one_get_ne "SECURITY_CONTROLS" "ASSETS" _ _ (by decide),
    ingest_one_get_ne "INCIDENTS" "ASSETS" _ _ (by decide),
    ingest_one_get_ne "VULNERABILITIES" "ASSETS" _ _ (by decide),
    ingest_one_get "ASSETS",
    ingest_one_get_ne "SECURITY_CONTROLS" "VULNERABILITIES" _ _ (by decide),
    ingest_one_get_ne "INCIDENTS" "VULNERABILITIES" _ _ (by decide),
    ingest_one_get "VULNERABILITIES",
    ingest_one_get_ne "SECURITY_CONTROLS" "INCIDENTS" _ _ (by decide),
    ingest_one_get "INCIDENTS",
    ingest_one_get "SECURITY_CONTROLS"]

/-- C8: the generator produces exactly 50 threat actors, 200 assets, 500
vulnerabilities, 300 incidents and 100 security controls; loading the
five generated files (delete-then-batched-insert per table) succeeds and
leaves each table with exactly its file's row count; and the verifier
then appends a `VERIFICATION` entry whose `record_count` is their sum,
1150. -/
theorem C8_cardinalities_and_verification_sum :
    (∀ g : GenEnv, (threat_actors g).length = 50 ∧ (assets g).length = 200 ∧
      (vulnerabilities g).length = 500 ∧ (incidents g).length = 300 ∧
      (security_controls g).length = 100) ∧
    (∀ (g : GenEnv) (ts : String) (lat : Nat) (db : List (String × Nat)) (fs : Option LogFile),
      (ingest_data ts (gen_files g lat) db fs).1 = none ∧
      TABLES.map (dbGet (ingest_data ts (gen_files g lat) db fs).2.1) =
        [50, 200, 500, 300, 100]) ∧
    (∀ (g : GenEnv) (ts : String) (lat : Nat) (db : List (String × Nat)) (fs : Option LogFile)
        (f : LogFile),
      (verify_data ts
          (mkCounts (fun _ => false) (ingest_data ts (gen_files g lat) db fs).2.1)
          (some f)).1 =
        some ⟨f.headerCount,
          f.entries ++ [⟨ts, "PIPELINE", "VERIFICATION", 0, 1150, "SUCCESS"⟩]⟩) := by
  refine ⟨?_, ?_, ?_⟩
  · intro g
    exact ⟨threat_actors_length g, assets_length g, vulnerabilities_length g,
      incidents_length g, security_controls_length g⟩
  · intro g ts lat db fs
    exact ⟨(gen_load_result g ts lat db fs).1, gen_load_counts g ts lat db fs⟩
  · intro g ts lat db fs f
    rw [mkCounts_ok _ _ (fun t => rfl), verify_data_ok]
    have hsum :
        (((TABLES.map fun t => (t, dbGet (ingest_data ts (gen_files g lat) db fs).2.1 t)).map
          Prod.snd)).sum = 1150 := by
      rw [List.map_map]
      have : (Prod.snd ∘ fun t => (t, dbGet (ingest_data ts (gen_files g lat) db fs).2.1 t)) =
          dbGet (ingest_data ts (gen_files g lat) db fs).2.1 := rfl
      rw [this, gen_load_counts g ts lat db fs]
      rfl
    rw [hsum]
    rfl

/-! ## C9: dashboard failure containment -/

theorem run_queries_length (qs : List (Except String (Nat × Nat))) :
    (run_queries qs).1.length = qs.length := by
  induction qs with
  | nil => simp [run_queries]
  | cons q rest ih =>
    cases q with
    | ok p => simp [run_queries, execute_query, ih]
    | error e => simp [run_queries, execute_query, ih]

/-- C9: every dashboard failure is contained.  A failing query is caught
inside `execute_query`, rendered as an inline notice and turned into a
null result; a connection failure renders the inline connection errors and
stops the script with no query executed; and with a live connection the
script is never stopped and every page query runs (each failure
contributing a null result slot rather than terminating the session). -/
theorem C9_dashboard_failure_containment :
    (∀ e : String, execute_query (α := Nat) (.error e) = ((none, 0), ["Query failed: " ++ e])) ∧
    (∀ (msg : String) (qs : List (Except String (Nat × Nat))),
      dashboard_run ⟨.error msg, qs⟩ =
        ⟨["Failed to connect to Snowflake: " ++ msg, MFA_INFO, "Not connected to Snowflake"],
          true, 0, []⟩) ∧
    (∀ (c : Unit) (qs : List (Except String (Nat × Nat))),
      (dashboard_run ⟨.ok c, qs⟩).stopped = false ∧
      (dashboard_run ⟨.ok c, qs⟩).queriesRun = qs.length ∧
      (dashboard_run ⟨.ok c, qs⟩).results.length = qs.length) := by
  refine ⟨fun e => rfl, fun msg qs => rfl, ?_⟩
  intro c qs
  refine ⟨rfl, rfl, ?_⟩
  simp [dashboard_run, get_snowflake_connection, run_queries_length]

/-! ## Log-growth lemmas for the driver -/

theorem countOp_append (a b : List LogEntry) (op : String) :
    countOp (a ++ b) op = countOp a op + countOp b op := by
  simp [countOp, List.countP_append]

theorem ingest_append (ts : String) (files : List (String × FileEnv))
    (db : List (String × Nat)) (f : LogFile) :
    ∃ tail, (ingest_data ts files db (some f)).2.2 = some ⟨f.headerCount, f.entries ++ tail⟩ ∧
      tail.all (fun e => e.status == "SUCCESS") = true := by
  induction files generalizing db f with
  | nil => exact ⟨[], by simp [ingest_data]⟩
  | cons p rest ih =>
    obtain ⟨t, fe⟩ := p
    by_cases hp : fe.present = true
    · by_cases hok : fe.insertOk = true
      · obtain ⟨tail, h1, h2⟩ := ih (ingest_one t fe.rows db)
          ⟨f.headerCount, f.entries ++ [⟨ts, t, "DATA_LOAD", fe.latency, fe.rows, "SUCCESS"⟩]⟩
        refine ⟨⟨ts, t, "DATA_LOAD", fe.latency, fe.rows, "SUCCESS"⟩ :: tail, ?_, ?_⟩
        · simp only [ingest_data, hp, hok, if_true, log_pipeline_default, log_pipeline]
          rw [h1]
          simp
        · simpa using h2
      · simp only [Bool.not_eq_true] at hok
        refine ⟨[], ?_, rfl⟩
        simp [ingest_data, hp, hok]
    · simp only [Bool.not_eq_true] at hp
      simpa [ingest_data, hp] using ih db f

theorem ingest_complete (ts : String) (files : List (String × FileEnv))
    (db : List (String × Nat)) (f : LogFile)
    (hall : files.all (fun p => p.2.present && p.2.insertOk) = true) :
    (ingest_data ts files db (some f)).1 = none ∧
    ∃ tail, (ingest_data ts files db (some f)).2.2 = some ⟨f.headerCount, f.entries ++ tail⟩ ∧
      countOp tail "DATA_LOAD" = files.length := by
  induction files generalizing db f with
  | nil => exact ⟨rfl, [], by simp [ingest_data], rfl⟩
  | cons p rest ih =>
    obtain ⟨t, fe⟩ := p
    simp only [List.all_cons, Bool.and_eq_true] at hall
    obtain ⟨⟨hp, hok⟩, hrest⟩ := hall
    obtain ⟨herr, tail, h1, h2⟩ := ih (ingest_one t fe.rows db)
      ⟨f.headerCount, f.entries ++ [⟨ts, t, "DATA_LOAD", fe.latency, fe.rows, "SUCCESS"⟩]⟩ hrest
    refine ⟨?_, ⟨ts, t, "DATA_LOAD", fe.latency, fe.rows, "SUCCESS"⟩ :: tail, ?_, ?_⟩
    · simpa [ingest_data, hp, hok, log_pipeline_default, log_pipeline] using herr
    · simp only [ingest_data, hp, hok, if_true, log_pipeline_default, log_pipeline]
      rw [h1]
      simp
    · simp [countOp, List.countP_cons] at h2 ⊢
      omega

theorem analytics_append (ts : String) (stmts : List SqlStmt) (f : LogFile) :
    ∃ tail, (create_analytics ts stmts (some f)).1 = some ⟨f.headerCount, f.entries ++ tail⟩ ∧
      tail.all (fun e => e.status == "SUCCESS") = true := by
  induction stmts generalizing f with
  | nil => exact ⟨[], by simp [create_analytics]⟩
  | cons s rest ih =>
    by_cases hb : s.blank = true
    · simpa [create_analytics, hb] using ih f
    · simp only [Bool.not_eq_true] at hb
      by_cases he : s.execOk = true
      · by_cases hcr : s.isCreate = true
        · obtain ⟨tail, h1, h2⟩ := ih
            ⟨f.headerCount,
             f.entries ++ [⟨ts, "ANALYTICS", "CREATE_" ++ s.objName, s.latency, 0, "SUCCESS"⟩]⟩
          refine ⟨⟨ts, "ANALYTICS", "CREATE_" ++ s.objName, s.latency, 0, "SUCCESS"⟩ :: tail,
            ?_, ?_⟩
          · simp only [create_analytics, hb, he, hcr, if_true, if_false,
              log_pipeline_default, log_pipeline]
            rw [h1]
            simp
          · simpa using h2
        · simp only [Bool.not_eq_true] at hcr
          simpa [create_analytics, hb, he, hcr] using ih f
      · simp only [Bool.not_eq_true] at he
        simpa [create_analytics, hb, he] using ih f

theorem verify_append (ts : String) (counts : List (String × Except String Nat)) (f : LogFile) :
    ∃ tail, (verify_data ts counts (some f)).1 = some ⟨f.headerCount, f.entries ++ tail⟩ ∧
      tail.all (fun e => e.status == "SUCCESS") = true := by
  unfold verify_data
  cases h : verify_loop counts 0 [] with
  | ok p =>
    obtain ⟨total, trace⟩ := p
    exact ⟨[⟨ts, "PIPELINE", "VERIFICATION", 0, total, "SUCCESS"⟩], rfl, rfl⟩
  | error trace => exact ⟨[], by simp, rfl⟩

theorem main_log_append (env : PipelineEnv) (db : List (String × Nat)) (f : LogFile) :
    ∃ tail, (main env db (some f)).2.2 = some ⟨f.headerCount, f.entries ++ tail⟩ ∧
      tail.all (fun e => e.status == "SUCCESS") = true := by
  unfold main
  simp only [init_pipeline_log]
  by_cases h1 : env.connectOk = true
  · by_cases h2 : isOkE (setup_database env.setupStmts env.schemaStmts).1 = true
    · simp only [h1, h2, if_true]
      obtain ⟨t1, ht1, hs1⟩ := ingest_append env.ts env.files db f
      rcases hm : ingest_data env.ts env.files db (some f) with ⟨err, db1, fs1⟩
      rw [hm] at ht1
      simp only at ht1
      cases err with
      | some t => exact ⟨t1, ht1, hs1⟩
      | none =>
        by_cases h4 : env.analyticsFileOk = true
        · simp only [h4, if_true]
          rw [ht1]
          obtain ⟨t2, ht2, hs2⟩ := analytics_append env.ts env.analyticsStmts
            ⟨f.headerCount, f.entries ++ t1⟩
          rw [ht2]
          obtain ⟨t3, ht3, hs3⟩ := verify_append env.ts (mkCounts env.countFail db1)
            ⟨f.headerCount, (f.entries ++ t1) ++ t2⟩
          rw [ht3]
          refine ⟨t1 ++ (t2 ++ t3), ?_, ?_⟩
          · simp [List.append_assoc]
          · simp only [List.all_append, Bool.and_eq_true]
            exact ⟨hs1, hs2, hs3⟩
        · simp only [h4, if_false]
          exact ⟨t1, ht1, hs1⟩
    · simp only [h1, h2, if_true, if_false]
      exact ⟨[], by simp, rfl⟩
  · simp only [h1, if_false]
    exact ⟨[], by simp, rfl⟩

/-! ## C10: every pipeline log entry ever written has status SUCCESS -/

/-- C10: across any run of the pipeline driver — successful or failing at
any stage — the log grows only by appended entries, and every appended
entry has status `SUCCESS`: `log_pipeline` defaults its status to
`SUCCESS`, every call site leaves the default, and failing operations
write no entry at all. -/
theorem C10_all_log_entries_success :
    ∀ (env : PipelineEnv) (db : List (String × Nat)) (fs0 : Option LogFile),
      ∃ tail,
        entriesOf (main env db fs0).2.2 = entriesOf (init_pipeline_log fs0) ++ tail ∧
        tail.all (fun e => e.status == "SUCCESS") = true := by
  intro env db fs0
  cases fs0 with
  | none =>
    obtain ⟨tail, h1, h2⟩ := main_log_append env db ⟨1, []⟩
    have : main env db none = main env db (some ⟨1, []⟩) := rfl
    rw [this]
    exact ⟨tail, by rw [h1]; simp [entriesOf, init_pipeline_log], h2⟩
  | some f =>
    obtain ⟨tail, h1, h2⟩ := main_log_append env db f
    exact ⟨tail, by rw [h1]; simp [entriesOf, init_pipeline_log], h2⟩

/-! ## C4: log growth over N complete runs -/

theorem main_complete (env : PipelineEnv) (hc : completeEnv env = true)
    (hcf : ∀ t, env.countFail t = false) (db : List (String × Nat)) (f : LogFile) :
    ∃ tail, (main env db (some f)).2.2 = some ⟨f.headerCount, f.entries ++ tail⟩ ∧
      5 ≤ countOp tail "DATA_LOAD" ∧ 1 ≤ countOp tail "VERIFICATION" := by
  simp only [completeEnv, Bool.and_eq_true, beq_iff_eq] at hc
  obtain ⟨⟨⟨⟨h1, h2⟩, h3⟩, h4⟩, h5⟩ := hc
  unfold main
  simp only [init_pipeline_log, h1, h2, if_true]
  obtain ⟨herr, t1, ht1, hd1⟩ := ingest_complete env.ts env.files db f h4
  rcases hm : ingest_data env.ts env.files db (some f) with ⟨err, db1, fs1⟩
  rw [hm] at herr ht1
  simp only at herr ht1
  subst herr
  simp only [h5, if_true]
  rw [ht1]
  obtain ⟨t2, ht2, _⟩ := analytics_append env.ts env.analyticsStmts
    ⟨f.headerCount, f.entries ++ t1⟩
  rw [ht2]
  rw [mkCounts_ok env.countFail db1 hcf, verify_data_ok]
  simp only [log_pipeline_default, log_pipeline]
  refine ⟨t1 ++ (t2 ++
    [⟨env.ts, "PIPELINE", "VERIFICATION", 0,
      ((TABLES.map fun t => (t, dbGet db1 t)).map Prod.snd).sum, "SUCCESS"⟩]), ?_, ?_, ?_⟩
  · simp [List.append_assoc]
  · rw [countOp_append]
    omega
  · rw [countOp_append, countOp_append]
    have : countOp [(⟨env.ts, "PIPELINE", "VERIFICATION", 0,
        ((TABLES.map fun t => (t, dbGet db1 t)).map Prod.snd).sum, "SUCCESS"⟩ : LogEntry)]
        "VERIFICATION" = 1 := rfl
    omega

theorem mainN_complete :
    ∀ (N : Nat) (envs : Nat → PipelineEnv) (db : List (String × Nat)) (f : LogFile),
      (∀ k, k < N → completeEnv (envs k) = true) →
      (∀ k t, (envs k).countFail t = false) →
      ∃ tail, (mainN N envs db (some f)).2 = some ⟨f.headerCount, f.entries ++ tail⟩ ∧
        5 * N ≤ countOp tail "DATA_LOAD" ∧ N ≤ countOp tail "VERIFICATION" := by
  intro N
  induction N with
  | zero =>
    intro envs db f _ _
    exact ⟨[], by simp [mainN], by simp [countOp], by simp [countOp]⟩
  | succ n ih =>
    intro envs db f hcomp hcf
    obtain ⟨t1, h1, hd1, hv1⟩ := main_complete (envs n) (hcomp n (by omega)) (hcf n) db f
    rcases hm : main (envs n) db (some f) with ⟨code, db1, fs1⟩
    rw [hm] at h1
    simp only at h1
    subst h1
    obtain ⟨t2, h2, hd2, hv2⟩ := ih envs db1 ⟨f.headerCount, f.entries ++ t1⟩
      (fun k hk => hcomp k (by omega)) hcf
    refine ⟨t1 ++ t2, ?_, ?_, ?_⟩
    · simp only [mainN, hm]
      rw [h2]
      simp [List.append_assoc]
    · rw [countOp_append]
      omega
    · rw [countOp_append]
      omega

/-- C4: after `N ≥ 1` complete runs of the loader pipeline starting from
no log file, the log file exists with exactly one header row; it contains
at least `N × 5` entries with operation `DATA_LOAD` and at least `N`
entries with operation `VERIFICATION`; its column order is the fixed
`timestamp, feature, operation, latency_ms, record_count, status`; and
any single run only ever appends entries to an existing file, preserving
its header count and existing entries. -/
theorem C4_pipeline_log_growth :
    fieldnames = ["timestamp", "feature", "operation", "latency_ms", "record_count", "status"] ∧
    (∀ (N : Nat) (envs : Nat → PipelineEnv) (db : List (String × Nat)),
      1 ≤ N →
      (∀ k, k < N → completeEnv (envs k) = true) →
      (∀ k t, (envs k).countFail t = false) →
      ∃ f, (mainN N envs db none).2 = some f ∧ f.headerCount = 1 ∧
        5 * N ≤ countOp f.entries "DATA_LOAD" ∧ N ≤ countOp f.entries "VERIFICATION") ∧
    (∀ (env : PipelineEnv) (db : List (String × Nat)) (f : LogFile),
      ∃ tail, (main env db (some f)).2.2 = some ⟨f.headerCount, f.entries ++ tail⟩) := by
  refine ⟨rfl, ?_, ?_⟩
  · intro N envs db hN hcomp hcf
    match N, hN with
    | n + 1, _ =>
      obtain ⟨t1, h1, hd1, hv1⟩ := main_complete (envs n) (hcomp n (by omega)) (hcf n) db ⟨1, []⟩
      rcases hm : main (envs n) db (some ⟨1, []⟩) with ⟨code, db1, fs1⟩
      rw [hm] at h1
      simp only [List.nil_append] at h1
      subst h1
      obtain ⟨t2, h2, hd2, hv2⟩ := mainN_complete n envs db1 ⟨1, t1⟩
        (fun k hk => hcomp k (by omega)) hcf
      have hnone : mainN (n + 1) envs db none = mainN n envs db1 (some ⟨1, t1⟩) := by
        have hinit : main (envs n) db none = main (envs n) db (some ⟨1, []⟩) := rfl
        simp only [mainN, hinit, hm]
      refine ⟨⟨1, t1 ++ t2⟩, ?_, rfl, ?_, ?_⟩
      · rw [hnone]
        simpa using h2
      · rw [countOp_append]
        omega
      · rw [countOp_append]
        omega
  · intro env db f
    obtain ⟨tail, h1, _⟩ := main_log_append env db f
    exact ⟨tail, h1⟩

/-- A concrete complete-run environment: five present, loadable files and
no failing statement or count query. -/
def sampleEnv : PipelineEnv :=
  ⟨"2026-01-01T00:00:00", true, [], [],
   [("THREAT_ACTORS", ⟨true, 50, true, 10⟩), ("ASSETS", ⟨true, 200, true, 12⟩),
    ("VULNERABILITIES", ⟨true, 500, true, 15⟩), ("INCIDENTS", ⟨true, 300, true, 13⟩),
    ("SECURITY_CONTROLS", ⟨true, 100, true, 11⟩)],
   true, [], fun _ => false⟩

/-- Witness for C4: one complete run from no log file satisfies all the
hypotheses and yields the stated log shape. -/
theorem C4_pipeline_log_growth_witness :
    1 ≤ 1 ∧
    ∃ f, (mainN 1 (fun _ => sampleEnv) [] none).2 = some f ∧ f.headerCount = 1 ∧
      5 * 1 ≤ countOp f.entries "DATA_LOAD" ∧ 1 ≤ countOp f.entries "VERIFICATION" :=
  have hc : completeEnv sampleEnv = true := by decide
  ⟨by decide,
   C4_pipeline_log_growth.2.1 1 (fun _ => sampleEnv) [] (by decide)
     (fun _ _ => hc) (fun _ _ => rfl)⟩

end Lab05
